import Mathlib

/-!
Verification development for the signed-data verification pipeline of
src/signed_data_verifier.rs (App Store server library, Rust).

The pipeline is shallowly embedded: the Rust structs become Lean structures,
the fallible operations return an explicit Outcome type whose crash
constructor models a Rust panic (the source uses .expect in two places and an
unguarded slice), and the collaborators living outside the translated file
(chain verifier, JOSE header parsing, base64 codec, signature primitive) are
modelled from their documented contracts, with the outcomes they would
produce on a given input carried inside the input value itself.
-/

namespace AppStoreServer

/-- Deployment environment. Modelled from the spec: the environment enum of
the primitives module (not part of the translated sources) has the two
members Sandbox and Production. -/
inductive Environment where
  | Sandbox
  | Production
deriving DecidableEq, Repr

/-- Signing algorithms representable by the JOSE header parser (the
jsonwebtoken crate's Algorithm enum). Note that the string alg value none
has no representative: a header declaring alg none fails header parsing
altogether. -/
inductive Algorithm where
  | HS256 | HS384 | HS512
  | ES256 | ES384
  | RS256 | RS384 | RS512
  | PS256 | PS384 | PS512
  | EdDSA
deriving DecidableEq, Repr

/-- Base64 decode failure of the codec collaborator. -/
inductive DecodeError where
  | invalidEncoding
deriving DecidableEq, Repr

/-- Modelled from the spec: the certificate chain verifier (chain_verifier
module, not part of the translated sources) fails with a single ChainInvalid
kind encompassing every structural or trust failure. -/
inductive ChainVerifierError where
  | ChainInvalid
deriving DecidableEq, Repr

/-- The error enum of SignedDataVerifier, as declared in the source. Note
there is no separate variant for a missing chain, an unsupported algorithm,
or a malformed payload. -/
inductive SignedDataVerifierError where
  | VerificationFailure
  | InvalidAppIdentifier
  | InvalidEnvironment
  | InternalChainVerifierError (e : ChainVerifierError)
  | InternalDecodeError (e : DecodeError)
deriving DecidableEq, Repr

/-- Result of running one of the Rust operations: a normal return value, a
returned error, or a panic (Rust .expect / slice-bounds failure), which
aborts without returning anything. -/
inductive Outcome (T : Type) where
  | ok : T → Outcome T
  | err : SignedDataVerifierError → Outcome T
  | crash : Outcome T
deriving DecidableEq, Repr

instance {ε α : Type} [DecidableEq ε] [DecidableEq α] : DecidableEq (Except ε α) := fun x y => by
  cases x <;> cases y
  · rename_i a b
    exact decidable_of_iff (a = b) (by simp)
  · exact isFalse (by simp)
  · exact isFalse (by simp)
  · rename_i a b
    exact decidable_of_iff (a = b) (by simp)

/-- An X.509 certificate, abstracted to the attributes the chain verifier
contract inspects. Modelled from the spec: each certificate is an opaque DER
blob carrying a subject public key, the key that actually signed it, and a
validity period. pubKey holds the raw public-key bytes in their ASN.1
encoding (the uncompressed EC point is the trailing 65 bytes). -/
structure Certificate where
  subject : Nat
  issuer : Nat
  pubKey : List Nat
  signerKey : List Nat
  notBefore : Nat
  notAfter : Nat
deriving DecidableEq, Repr

/-- A certificate is signed by another when its recorded signing key is the
other certificate's public key. -/
def certSignedBy (c d : Certificate) : Bool :=
  c.signerKey == d.pubKey

/-- Each adjacent pair of the chain is a valid signature link. -/
def linksOk : List Certificate → Bool
  | [] => true
  | [_] => true
  | c :: d :: rest => certSignedBy c d && linksOk (d :: rest)

/-- The last certificate of the chain is anchored in the trusted set: it is
itself a trusted root or is signed by one. -/
def anchorOk (roots : List Certificate) (c : Certificate) : Bool :=
  roots.any (fun r => decide (r = c) || certSignedBy c r)

/-- A trust path exists from the leaf through the intermediates to some
certificate of the trusted set. -/
def pathValid (roots : List Certificate) (chain : List Certificate) : Bool :=
  linksOk chain &&
    (match chain.getLast? with
     | some last => anchorOk roots last
     | none => false)

/-- The reference time lies inside the certificate's validity period. -/
def timeValid (t : Nat) (c : Certificate) : Bool :=
  decide (c.notBefore ≤ t) && decide (t ≤ c.notAfter)

/-- Modelled from the spec: verify_chain (chain_verifier module, not part of
the translated sources) takes a non-empty leaf-first chain, a trusted root
set and an optional reference time; it builds a trust path to some trusted
root, validating signatures at each link and, only when a reference time is
supplied, validity periods; on success it returns the raw public-key bytes
of the leaf certificate, otherwise it fails with ChainInvalid. -/
def verify_chain (chain : List Certificate) (roots : List Certificate)
    (effectiveDate : Option Nat) : Except ChainVerifierError (List Nat) :=
  match chain with
  | [] => .error .ChainInvalid
  | leaf :: _ =>
    if pathValid roots chain &&
        (match effectiveDate with
         | none => true
         | some t => chain.all (timeValid t)) then
      .ok leaf.pubKey
    else
      .error .ChainInvalid

/-- A JOSE header as produced by decode_header: the declared algorithm and
the optional embedded certificate chain. Each x5c entry is a base64 string,
abstracted by the outcome of decoding it to DER (as_der_bytes). -/
structure JwsHeader where
  alg : Algorithm
  x5c : Option (List (Except DecodeError Certificate))

/-- A signed envelope (compact JWS string), abstracted by what the
collaborators extract from it when handed the string: the header-parse
outcome (none models a parse failure, including the unrepresentable alg
none), the key bytes under which its signature actually verifies (none when
no key verifies it), the exp claim carried by its payload, and the outcome
of deserializing the payload into the requested claim type T. -/
structure SignedEnvelope (T : Type) where
  header : Option JwsHeader
  sigKey : Option (List Nat)
  exp : Option Nat
  payload : Option T

/-- Decoded transaction claims (JWSTransactionDecodedPayload). Modelled from
the spec: the fields this pipeline inspects are the optional bundle_id and
environment; the remaining transaction fields are never read here. -/
structure JWSTransactionDecodedPayload where
  bundle_id : Option String
  environment : Option Environment
deriving DecidableEq, Repr

/-- Notification data sub-record. Modelled from the spec: carries bundle_id,
app_apple_id, environment and the nested signed transaction. -/
structure NotificationData where
  bundle_id : Option String
  app_apple_id : Option Int
  environment : Option Environment
  signed_transaction_info : Option String
deriving DecidableEq, Repr

/-- Notification renewal-summary sub-record. Modelled from the spec. -/
structure NotificationSummary where
  bundle_id : Option String
  app_apple_id : Option Int
  environment : Option Environment
deriving DecidableEq, Repr

/-- Decoded notification claims (ResponseBodyV2DecodedPayload). Modelled
from the spec: optional data and summary sub-records plus a notification
type the verifier never inspects. -/
structure ResponseBodyV2DecodedPayload where
  data : Option NotificationData
  summary : Option NotificationSummary
  notification_type : Option String
deriving DecidableEq, Repr

/-- The verifier value: trusted roots plus the configured identity, as in
the source struct. -/
structure SignedDataVerifier where
  root_certificates : List Certificate
  environment : Environment
  bundle_id : String
  app_apple_id : Option Int

/-- Constructor, mirroring SignedDataVerifier::new. -/
def SignedDataVerifier.new (root_certificates : List Certificate)
    (environment : Environment) (bundle_id : String)
    (app_apple_id : Option Int) : SignedDataVerifier :=
  { root_certificates := root_certificates
    environment := environment
    bundle_id := bundle_id
    app_apple_id := app_apple_id }

/-- Validation settings of the signature collaborator (the jsonwebtoken
crate's Validation struct, restricted to the fields this pipeline sets). -/
structure Validation where
  algorithms : List Algorithm
  validate_exp : Bool
  required_spec_claims : List String
deriving DecidableEq, Repr

/-- Validation::new(alg): exp validation on and exp required by default. -/
def Validation.new (alg : Algorithm) : Validation :=
  { algorithms := [alg]
    validate_exp := true
    required_spec_claims := ["exp"] }

/-- The exp claim lies strictly in the past of the current time. -/
def expExpired (now : Nat) : Option Nat → Bool
  | some e => decide (e < now)
  | none => false

/-- Errors of the signature collaborator (jsonwebtoken decode). -/
inductive JwtError where
  | InvalidToken
  | InvalidAlgorithm
  | InvalidSignature
  | MissingRequiredClaim
  | ExpiredSignature
  | DeserializeError
deriving DecidableEq, Repr

/-- The signature collaborator, jsonwebtoken decode, modelled from its
contract: re-parse the header, require the declared algorithm to be among
the accepted ones, verify the signature against the supplied key bytes,
apply the claim validation selected by the Validation value (required
claims, then expiration when validate_exp is set), and finally deserialize
the payload into the requested claim type. -/
def jwt_decode {T : Type} (now : Nat) (signed_obj : SignedEnvelope T)
    (keyBytes : List Nat) (validation : Validation) : Except JwtError T :=
  match signed_obj.header with
  | none => .error .InvalidToken
  | some header =>
    if ¬ validation.algorithms.contains header.alg then
      .error .InvalidAlgorithm
    else if signed_obj.sigKey ≠ some keyBytes then
      .error .InvalidSignature
    else if validation.required_spec_claims.contains "exp" ∧ signed_obj.exp = none then
      .error .MissingRequiredClaim
    else if validation.validate_exp ∧ expExpired now signed_obj.exp then
      .error .ExpiredSignature
    else
      match signed_obj.payload with
      | none => .error .DeserializeError
      | some claims => .ok claims

/-- The trailing 65 bytes of the key material: the source slice expression
pub_key[pub_key.len() - 65..]. -/
def ecPoint (pub_key : List Nat) : List Nat :=
  pub_key.drop (pub_key.length - 65)

/-- Base64-decode every x5c entry, short-circuiting on the first failure:
the source expression x5c.iter().map(as_der_bytes).collect over Result. -/
def collectDer : List (Except DecodeError Certificate) →
    Except DecodeError (List Certificate)
  | [] => .ok []
  | c :: rest =>
    match c with
    | .error e => .error e
    | .ok cert =>
      match collectDer rest with
      | .error e => .error e
      | .ok certs => .ok (cert :: certs)

/-- SignedDataVerifier::decode_signed_object, translated clause by clause
from the source. The two .expect call sites (header parse and final decode)
become crash, as does the unguarded trailing-65-byte slice when the key
material returned by the chain verifier is shorter than 65 bytes. now is
the ambient clock the signature collaborator would read. -/
def decode_signed_object {T : Type} (v : SignedDataVerifier) (now : Nat)
    (signed_obj : SignedEnvelope T) : Outcome T :=
  match signed_obj.header with
  | none => Outcome.crash
  | some header =>
    match header.x5c with
    | none => .err .VerificationFailure
    | some x5c =>
      if x5c.isEmpty then .err .VerificationFailure
      else
        match collectDer x5c with
        | .error e => .err (.InternalDecodeError e)
        | .ok chain =>
          if header.alg ≠ Algorithm.ES256 then .err .VerificationFailure
          else
            match verify_chain chain v.root_certificates none with
            | .error e => .err (.InternalChainVerifierError e)
            | .ok pub_key =>
              if pub_key.length < 65 then Outcome.crash
              else
                let pub_key := ecPoint pub_key
                let claims : List String := []
                let validator := Validation.new Algorithm.ES256
                let validator := { validator with validate_exp := false }
                let validator := { validator with required_spec_claims := claims }
                match jwt_decode now signed_obj pub_key validator with
                | .error _ => Outcome.crash
                | .ok payload => Outcome.ok payload

/-- SignedDataVerifier::verify_and_decode_signed_transaction, translated
from the source: decode, then the bundle check, then the environment
check. -/
def verify_and_decode_signed_transaction (v : SignedDataVerifier) (now : Nat)
    (signed_transaction : SignedEnvelope JWSTransactionDecodedPayload) :
    Outcome JWSTransactionDecodedPayload :=
  match decode_signed_object v now signed_transaction with
  | .crash => .crash
  | .err e => .err e
  | .ok decoded_signed_tx =>
    if decoded_signed_tx.bundle_id ≠ some v.bundle_id then
      .err .InvalidAppIdentifier
    else if decoded_signed_tx.environment ≠ some v.environment then
      .err .InvalidEnvironment
    else
      .ok decoded_signed_tx

/-- The sub-record selection block of verify_and_decode_notification:
read bundle_id, app_apple_id and environment from data when present, else
from summary when present, else report that neither is present. -/
def selectSub (decoded : ResponseBodyV2DecodedPayload) :
    Option (Option String × Option Int × Option Environment) :=
  match decoded.data with
  | some data => some (data.bundle_id, data.app_apple_id, data.environment)
  | none =>
    match decoded.summary with
    | some summary => some (summary.bundle_id, summary.app_apple_id, summary.environment)
    | none => none

/-- SignedDataVerifier::verify_and_decode_notification, translated from the
source: decode, select the identity-bearing sub-record, then the combined
bundle / Production app-identifier check, then the environment check. -/
def verify_and_decode_notification (v : SignedDataVerifier) (now : Nat)
    (signed_payload : SignedEnvelope ResponseBodyV2DecodedPayload) :
    Outcome ResponseBodyV2DecodedPayload :=
  match decode_signed_object v now signed_payload with
  | .crash => .crash
  | .err e => .err e
  | .ok decoded =>
    match selectSub decoded with
    | none => .err .InvalidAppIdentifier
    | some (bundle_id, app_apple_id, environment) =>
      if bundle_id ≠ some v.bundle_id ∨
          (v.environment = Environment.Production ∧ app_apple_id ≠ v.app_apple_id) then
        .err .InvalidAppIdentifier
      else if environment ≠ some v.environment then
        .err .InvalidEnvironment
      else
        .ok decoded

/-- The certificate chain that decode_signed_object extracts from an
envelope before invoking the chain verifier: header parsed, x5c present and
non-empty, every entry base64-decodable, and declared algorithm ES256 —
the branch structure is that of decode_signed_object up to the
verify_chain call. -/
def chainOf {T : Type} (e : SignedEnvelope T) : Option (List Certificate) :=
  match e.header with
  | none => none
  | some header =>
    match header.x5c with
    | none => none
    | some x5c =>
      if x5c.isEmpty then none
      else
        match collectDer x5c with
        | .error _ => none
        | .ok chain =>
          if header.alg ≠ Algorithm.ES256 then none else some chain

/-- The validation settings decode_signed_object hands to the signature
collaborator after the source mutates Validation::new(ES256): exp
validation off, no required claims. -/
def finalValidator : Validation :=
  { algorithms := [Algorithm.ES256]
    validate_exp := false
    required_spec_claims := [] }

/-- What decode_signed_object does once a chain has been extracted from the
envelope: chain verification, trailing-65-byte key extraction, signature
verification and payload deserialization. -/
def afterChain {T : Type} (v : SignedDataVerifier) (now : Nat)
    (e : SignedEnvelope T) (chain : List Certificate) : Outcome T :=
  match verify_chain chain v.root_certificates none with
  | .error e2 => .err (.InternalChainVerifierError e2)
  | .ok pub_key =>
    if pub_key.length < 65 then Outcome.crash
    else
      match jwt_decode now e (ecPoint pub_key) finalValidator with
      | .error _ => Outcome.crash
      | .ok payload => Outcome.ok payload

/-- Trusted root of the concrete examples: self-signed. -/
def rootCert : Certificate :=
  { subject := 0, issuer := 0, pubKey := [1], signerKey := [1]
    notBefore := 0, notAfter := 1000 }

/-- Key material of the example leaf certificate: exactly 65 bytes, so the
EC point is the whole key. -/
def leafKeyBytes : List Nat := List.replicate 65 7

/-- Example leaf certificate, signed by the root. -/
def leafCert : Certificate :=
  { subject := 1, issuer := 0, pubKey := leafKeyBytes, signerKey := [1]
    notBefore := 0, notAfter := 1000 }

/-- Leaf certificate signed by a key no trusted root owns. -/
def badLeafCert : Certificate := { leafCert with signerKey := [2] }

/-- Leaf certificate whose key material is shorter than 65 bytes. -/
def shortKeyCert : Certificate := { leafCert with pubKey := [9, 9] }

/-- Leaf certificate whose validity period ends at time 10. -/
def expiredLeafCert : Certificate := { leafCert with notAfter := 10 }

/-- Example Sandbox verifier. -/
def vSandbox : SignedDataVerifier :=
  SignedDataVerifier.new [rootCert] Environment.Sandbox "com.example.app" (some 42)

/-- Example Production verifier. -/
def vProd : SignedDataVerifier :=
  SignedDataVerifier.new [rootCert] Environment.Production "com.example.app" (some 42)

/-- Transaction claims matching vSandbox. -/
def txPayload : JWSTransactionDecodedPayload :=
  { bundle_id := some "com.example.app", environment := some Environment.Sandbox }

/-- Well-formed header: ES256 and the good leaf chain. -/
def hdOk : JwsHeader := { alg := Algorithm.ES256, x5c := some [Except.ok leafCert] }

/-- Fully valid signed transaction envelope for vSandbox. -/
def envOkTx : SignedEnvelope JWSTransactionDecodedPayload :=
  { header := some hdOk, sigKey := some leafKeyBytes, exp := none
    payload := some txPayload }

/-- Valid chain, but the signature verifies under a different key. -/
def envBadSig : SignedEnvelope JWSTransactionDecodedPayload :=
  { envOkTx with sigKey := some [3] }

/-- Chain whose leaf does not anchor at any trusted root. -/
def envBadChain : SignedEnvelope JWSTransactionDecodedPayload :=
  { envOkTx with
    header := some { alg := Algorithm.ES256, x5c := some [Except.ok badLeafCert] } }

/-- Header declaring RS256 over an otherwise fully valid envelope. -/
def envRS256 : SignedEnvelope JWSTransactionDecodedPayload :=
  { envOkTx with
    header := some { alg := Algorithm.RS256, x5c := some [Except.ok leafCert] } }

/-- Header with no x5c field at all. -/
def envNoX5c : SignedEnvelope JWSTransactionDecodedPayload :=
  { envOkTx with header := some { alg := Algorithm.ES256, x5c := none } }

/-- Header with an empty x5c list. -/
def envEmptyX5c : SignedEnvelope JWSTransactionDecodedPayload :=
  { envOkTx with header := some { alg := Algorithm.ES256, x5c := some [] } }

/-- Envelope whose header fails to parse (this is also how an envelope
declaring alg none presents itself to this pipeline, since the header
parser has no representation for it). -/
def envHeaderNone : SignedEnvelope JWSTransactionDecodedPayload :=
  { envOkTx with header := none }

/-- Valid chain and signature, but the payload does not deserialize into
transaction claims. -/
def envDeserFail : SignedEnvelope JWSTransactionDecodedPayload :=
  { envOkTx with payload := none }

/-- Valid chain whose leaf key material is shorter than 65 bytes. -/
def envShortKey : SignedEnvelope JWSTransactionDecodedPayload :=
  { header := some { alg := Algorithm.ES256, x5c := some [Except.ok shortKeyCert] }
    sigKey := some [9, 9], exp := none, payload := some txPayload }

/-- Valid chain whose only certificate is expired from time 11 on. -/
def envExpiredTx : SignedEnvelope JWSTransactionDecodedPayload :=
  { header := some { alg := Algorithm.ES256, x5c := some [Except.ok expiredLeafCert] }
    sigKey := some leafKeyBytes, exp := none, payload := some txPayload }

/-- Notification data sub-record matching vSandbox. -/
def notifData : NotificationData :=
  { bundle_id := some "com.example.app", app_apple_id := some 42
    environment := some Environment.Sandbox, signed_transaction_info := none }

/-- Notification claims carrying that data sub-record. -/
def notifPayload : ResponseBodyV2DecodedPayload :=
  { data := some notifData, summary := none, notification_type := some "DID_RENEW" }

/-- Fully valid signed notification envelope for vSandbox. -/
def envOkNotif : SignedEnvelope ResponseBodyV2DecodedPayload :=
  { header := some hdOk, sigKey := some leafKeyBytes, exp := none
    payload := some notifPayload }

/-- Production notification whose data sub-record carries app_apple_id 99
while the verifier is configured with app identifier 42 (Scenario C). -/
def notifDataWrongAppId : NotificationData :=
  { bundle_id := some "com.example.app", app_apple_id := some 99
    environment := some Environment.Production, signed_transaction_info := none }

/-- Notification claims carrying the wrong-app-identifier data record. -/
def notifPayloadWrongAppId : ResponseBodyV2DecodedPayload :=
  { data := some notifDataWrongAppId, summary := none
    notification_type := some "DID_RENEW" }

/-- Signed notification envelope for the Scenario C check. -/
def envWrongAppId : SignedEnvelope ResponseBodyV2DecodedPayload :=
  { header := some hdOk, sigKey := some leafKeyBytes, exp := none
    payload := some notifPayloadWrongAppId }

/-- chainOf ignores the exp claim of the envelope. -/
theorem chainOf_set_exp {T : Type} (e : SignedEnvelope T) (x : Option Nat) :
    chainOf { e with exp := x } = chainOf e := rfl

/-- A successfully extracted chain means the header parsed and declared
ES256. -/
theorem chainOf_header {T : Type} (e : SignedEnvelope T) (chain : List Certificate)
    (hc : chainOf e = some chain) :
    ∃ hd, e.header = some hd ∧ hd.alg = Algorithm.ES256 := by
  obtain ⟨hdr, sk, ex, pl⟩ := e
  cases hdr with
  | none => simp [chainOf] at hc
  | some header =>
    obtain ⟨alg, x5cOpt⟩ := header
    cases x5cOpt with
    | none => simp [chainOf] at hc
    | some l =>
      cases l with
      | nil => simp [chainOf] at hc
      | cons c cs =>
        cases hcd : collectDer (c :: cs) with
        | error de => simp [chainOf, hcd] at hc
        | ok chain2 =>
          by_cases halg : alg = Algorithm.ES256
          · exact ⟨⟨alg, some (c :: cs)⟩, rfl, halg⟩
          · simp [chainOf, hcd, halg] at hc

/-- Once a chain has been extracted, decode_signed_object behaves as
afterChain on it. -/
theorem decode_eq_afterChain {T : Type} (v : SignedDataVerifier) (now : Nat)
    (e : SignedEnvelope T) (chain : List Certificate)
    (hc : chainOf e = some chain) :
    decode_signed_object v now e = afterChain v now e chain := by
  obtain ⟨hdr, sk, ex, pl⟩ := e
  cases hdr with
  | none => simp [chainOf] at hc
  | some header =>
    obtain ⟨alg, x5cOpt⟩ := header
    cases x5cOpt with
    | none => simp [chainOf] at hc
    | some l =>
      cases l with
      | nil => simp [chainOf] at hc
      | cons c cs =>
        cases hcd : collectDer (c :: cs) with
        | error de => simp [chainOf, hcd] at hc
        | ok chain2 =>
          by_cases halg : alg = Algorithm.ES256
          · subst halg
            have hchain : chain2 = chain := by simpa [chainOf, hcd] using hc
            subst hchain
            simp [decode_signed_object, afterChain, hcd, finalValidator, Validation.new]
          · simp [chainOf, hcd, halg] at hc

/-- Inversion of a successful jsonwebtoken decode: the signature verified
under the supplied key and the payload deserialized. -/
theorem jwt_decode_ok_inv {T : Type} (now : Nat) (e : SignedEnvelope T)
    (keyBytes : List Nat) (validation : Validation) (t : T)
    (h : jwt_decode now e keyBytes validation = .ok t) :
    e.sigKey = some keyBytes ∧ e.payload = some t := by
  obtain ⟨hdr, sk, ex, pl⟩ := e
  cases hdr with
  | none => simp [jwt_decode] at h
  | some header =>
    simp only [jwt_decode] at h
    split at h
    · exact Except.noConfusion h
    · split at h
      · exact Except.noConfusion h
      · rename_i hsig
        split at h
        · exact Except.noConfusion h
        · split at h
          · exact Except.noConfusion h
          · cases pl with
            | none => exact Except.noConfusion h
            | some claims =>
              cases h
              exact ⟨not_not.mp hsig, rfl⟩

/-- jsonwebtoken decode with the pipeline validation settings succeeds when
the algorithm is ES256, the signature verifies under the supplied key and
the payload deserializes; note neither exp nor the clock is consulted. -/
theorem jwt_decode_final_ok {T : Type} (now : Nat) (e : SignedEnvelope T)
    (hd : JwsHeader) (keyBytes : List Nat) (t : T)
    (hh : e.header = some hd) (halg : hd.alg = Algorithm.ES256)
    (hsig : e.sigKey = some keyBytes) (hpl : e.payload = some t) :
    jwt_decode now e keyBytes finalValidator = .ok t := by
  unfold jwt_decode
  rw [hh]
  simp [finalValidator, halg, hsig, hpl]

/-- jsonwebtoken decode fails with an invalid-signature error when the
signature does not verify under the supplied key. -/
theorem jwt_decode_bad_sig {T : Type} (now : Nat) (e : SignedEnvelope T)
    (hd : JwsHeader) (keyBytes : List Nat)
    (hh : e.header = some hd) (halg : hd.alg = Algorithm.ES256)
    (hsig : e.sigKey ≠ some keyBytes) :
    jwt_decode now e keyBytes finalValidator = .error .InvalidSignature := by
  unfold jwt_decode
  rw [hh]
  simp [finalValidator, halg, hsig]

/-- jsonwebtoken decode fails with a deserialization error when the
signature verifies but the payload does not deserialize. -/
theorem jwt_decode_no_payload {T : Type} (now : Nat) (e : SignedEnvelope T)
    (hd : JwsHeader) (keyBytes : List Nat)
    (hh : e.header = some hd) (halg : hd.alg = Algorithm.ES256)
    (hsig : e.sigKey = some keyBytes) (hpl : e.payload = none) :
    jwt_decode now e keyBytes finalValidator = .error .DeserializeError := by
  unfold jwt_decode
  rw [hh]
  simp [finalValidator, halg, hsig, hpl]

/-- Chain validation failure surfaces as the chain-verifier error. -/
theorem decode_chain_invalid {T : Type} (v : SignedDataVerifier) (now : Nat)
    (e : SignedEnvelope T) (chain : List Certificate)
    (hc : chainOf e = some chain)
    (hvc : verify_chain chain v.root_certificates none = .error .ChainInvalid) :
    decode_signed_object v now e = .err (.InternalChainVerifierError .ChainInvalid) := by
  rw [decode_eq_afterChain v now e chain hc]
  unfold afterChain
  rw [hvc]

/-- Signature failure after successful chain validation is a crash, not a
returned error: the source unwraps the jsonwebtoken result with expect. -/
theorem decode_bad_sig_crash {T : Type} (v : SignedDataVerifier) (now : Nat)
    (e : SignedEnvelope T) (chain : List Certificate) (pub_key : List Nat)
    (hc : chainOf e = some chain)
    (hvc : verify_chain chain v.root_certificates none = .ok pub_key)
    (hlen : 65 ≤ pub_key.length)
    (hsig : e.sigKey ≠ some (ecPoint pub_key)) :
    decode_signed_object v now e = .crash := by
  rw [decode_eq_afterChain v now e chain hc]
  obtain ⟨hd, hh, halg⟩ := chainOf_header e chain hc
  have hnlt : ¬ pub_key.length < 65 := by omega
  simp [afterChain, hvc, hnlt,
    jwt_decode_bad_sig now e hd (ecPoint pub_key) hh halg hsig]

/-- decode_signed_object never returns an error once the chain verified. -/
theorem afterChain_no_err {T : Type} (v : SignedDataVerifier) (now : Nat)
    (e : SignedEnvelope T) (chain : List Certificate) (pub_key : List Nat)
    (e2 : SignedDataVerifierError)
    (hvc : verify_chain chain v.root_certificates none = .ok pub_key) :
    afterChain v now e chain ≠ .err e2 := by
  simp only [afterChain, hvc]
  split
  · exact fun h => Outcome.noConfusion h
  · split
    · exact fun h => Outcome.noConfusion h
    · exact fun h => Outcome.noConfusion h

/-- A decode-level error propagates unchanged through the transaction
verifier. -/
theorem verify_tx_prop_err (v : SignedDataVerifier) (now : Nat)
    (e : SignedEnvelope JWSTransactionDecodedPayload) (e2 : SignedDataVerifierError)
    (h : decode_signed_object v now e = .err e2) :
    verify_and_decode_signed_transaction v now e = .err e2 := by
  unfold verify_and_decode_signed_transaction
  rw [h]

/-- A decode-level crash propagates through the transaction verifier. -/
theorem verify_tx_prop_crash (v : SignedDataVerifier) (now : Nat)
    (e : SignedEnvelope JWSTransactionDecodedPayload)
    (h : decode_signed_object v now e = .crash) :
    verify_and_decode_signed_transaction v now e = .crash := by
  unfold verify_and_decode_signed_transaction
  rw [h]

/-- A decode-level error propagates unchanged through the notification
verifier. -/
theorem verify_notif_prop_err (v : SignedDataVerifier) (now : Nat)
    (en : SignedEnvelope ResponseBodyV2DecodedPayload) (e2 : SignedDataVerifierError)
    (h : decode_signed_object v now en = .err e2) :
    verify_and_decode_notification v now en = .err e2 := by
  unfold verify_and_decode_notification
  rw [h]

/-- A decode-level crash propagates through the notification verifier. -/
theorem verify_notif_prop_crash (v : SignedDataVerifier) (now : Nat)
    (en : SignedEnvelope ResponseBodyV2DecodedPayload)
    (h : decode_signed_object v now en = .crash) :
    verify_and_decode_notification v now en = .crash := by
  unfold verify_and_decode_notification
  rw [h]

/-- The transaction verifier returns claims only when decoding returned
those very claims. -/
theorem verify_tx_ok_inv (v : SignedDataVerifier) (now : Nat)
    (e : SignedEnvelope JWSTransactionDecodedPayload) (t : JWSTransactionDecodedPayload)
    (h : verify_and_decode_signed_transaction v now e = .ok t) :
    decode_signed_object v now e = .ok t := by
  unfold verify_and_decode_signed_transaction at h
  split at h
  · exact Outcome.noConfusion h
  · exact Outcome.noConfusion h
  · rename_i decoded hdec
    split at h
    · exact Outcome.noConfusion h
    · split at h
      · exact Outcome.noConfusion h
      · cases h
        exact hdec

/-- The notification verifier returns claims only when decoding returned
those very claims. -/
theorem verify_notif_ok_inv (v : SignedDataVerifier) (now : Nat)
    (en : SignedEnvelope ResponseBodyV2DecodedPayload) (n : ResponseBodyV2DecodedPayload)
    (h : verify_and_decode_notification v now en = .ok n) :
    decode_signed_object v now en = .ok n := by
  unfold verify_and_decode_notification at h
  split at h
  · exact Outcome.noConfusion h
  · exact Outcome.noConfusion h
  · rename_i decoded hdec
    split at h
    · exact Outcome.noConfusion h
    · rename_i trip _
      split at h
      · exact Outcome.noConfusion h
      · split at h
        · exact Outcome.noConfusion h
        · cases h
          exact hdec

/-- Every transaction-verifier error is either a decode-level error or one
of the two semantic-check errors. -/
theorem verify_tx_err_inv (v : SignedDataVerifier) (now : Nat)
    (e : SignedEnvelope JWSTransactionDecodedPayload) (e2 : SignedDataVerifierError)
    (h : verify_and_decode_signed_transaction v now e = .err e2) :
    decode_signed_object v now e = .err e2 ∨
      e2 = .InvalidAppIdentifier ∨ e2 = .InvalidEnvironment := by
  unfold verify_and_decode_signed_transaction at h
  split at h
  · exact Outcome.noConfusion h
  · rename_i e3 hdec
    cases h
    exact .inl hdec
  · split at h
    · cases h
      exact .inr (.inl rfl)
    · split at h
      · cases h
        exact .inr (.inr rfl)
      · exact Outcome.noConfusion h

/-- Every notification-verifier error is either a decode-level error or one
of the two semantic-check errors. -/
theorem verify_notif_err_inv (v : SignedDataVerifier) (now : Nat)
    (en : SignedEnvelope ResponseBodyV2DecodedPayload) (e2 : SignedDataVerifierError)
    (h : verify_and_decode_notification v now en = .err e2) :
    decode_signed_object v now en = .err e2 ∨
      e2 = .InvalidAppIdentifier ∨ e2 = .InvalidEnvironment := by
  unfold verify_and_decode_notification at h
  split at h
  · exact Outcome.noConfusion h
  · rename_i e3 hdec
    cases h
    exact .inl hdec
  · split at h
    · cases h
      exact .inr (.inl rfl)
    · split at h
      · cases h
        exact .inr (.inl rfl)
      · split at h
        · cases h
          exact .inr (.inr rfl)
        · exact Outcome.noConfusion h

/-- Successful decoding means the chain was extracted and verified, the key
material was at least 65 bytes, the signature verified under the trailing
65 bytes, and the payload deserialized to the returned claims. -/
theorem decode_ok_inv {T : Type} (v : SignedDataVerifier) (now : Nat)
    (e : SignedEnvelope T) (t : T)
    (h : decode_signed_object v now e = .ok t) :
    ∃ chain pub_key, chainOf e = some chain ∧
      verify_chain chain v.root_certificates none = .ok pub_key ∧
      65 ≤ pub_key.length ∧ e.sigKey = some (ecPoint pub_key) ∧
      e.payload = some t := by
  obtain ⟨hdr, sk, ex, pl⟩ := e
  cases hdr with
  | none => simp [decode_signed_object] at h
  | some header =>
    obtain ⟨alg, x5cOpt⟩ := header
    cases x5cOpt with
    | none => simp [decode_signed_object] at h
    | some l =>
      cases l with
      | nil => simp [decode_signed_object] at h
      | cons c cs =>
        cases hcd : collectDer (c :: cs) with
        | error de => simp [decode_signed_object, hcd] at h
        | ok chain =>
          by_cases halg : alg = Algorithm.ES256
          · subst halg
            have hc : chainOf
                (⟨some ⟨Algorithm.ES256, some (c :: cs)⟩, sk, ex, pl⟩ :
                  SignedEnvelope T) = some chain := by
              simp [chainOf, hcd]
            rw [decode_eq_afterChain _ _ _ _ hc] at h
            cases hvc : verify_chain chain v.root_certificates none with
            | error ce => simp [afterChain, hvc] at h
            | ok pub_key =>
              simp only [afterChain, hvc] at h
              by_cases hlen : pub_key.length < 65
              · rw [if_pos hlen] at h
                exact Outcome.noConfusion h
              · rw [if_neg hlen] at h
                split at h
                · exact Outcome.noConfusion h
                · rename_i payload hjwt
                  cases h
                  obtain ⟨hsk, hpl⟩ := jwt_decode_ok_inv _ _ _ _ _ hjwt
                  exact ⟨chain, pub_key, hc, hvc, by omega, hsk, hpl⟩
          · simp [decode_signed_object, hcd, halg] at h

/-- C1 counterexample: the claim states that an envelope whose signature
does not verify under the trust-validated leaf key makes the verify
operations return an error and never crash; on envBadSig (valid trusted
chain, signature verifying under a different key) the code panics (the
source unwraps the jsonwebtoken result with expect), so no error value is
returned. -/
theorem C1_counterexample :
    verify_and_decode_signed_transaction vSandbox 0 envBadSig = .crash := by
  decide

/-- C1 (amended): for envelopes whose extracted chain does not validate to
a trusted root, both verify operations return the chain-verifier error
(ChainInvalid kind) and no claims; for envelopes whose chain validates but
whose signature does not verify under the trailing 65 bytes of the
validated leaf key, both operations crash (panic) rather than returning an
error — and in neither case are claims returned; claims are returned only
when both chain validation and signature verification succeeded. -/
theorem C1_trust_gate (v : SignedDataVerifier) (now : Nat)
    (e : SignedEnvelope JWSTransactionDecodedPayload)
    (en : SignedEnvelope ResponseBodyV2DecodedPayload) :
    (∀ chain, chainOf e = some chain →
      verify_chain chain v.root_certificates none = .error .ChainInvalid →
      verify_and_decode_signed_transaction v now e =
        .err (.InternalChainVerifierError .ChainInvalid))
  ∧ (∀ chain, chainOf en = some chain →
      verify_chain chain v.root_certificates none = .error .ChainInvalid →
      verify_and_decode_notification v now en =
        .err (.InternalChainVerifierError .ChainInvalid))
  ∧ (∀ chain pub_key, chainOf e = some chain →
      verify_chain chain v.root_certificates none = .ok pub_key →
      65 ≤ pub_key.length → e.sigKey ≠ some (ecPoint pub_key) →
      verify_and_decode_signed_transaction v now e = .crash)
  ∧ (∀ chain pub_key, chainOf en = some chain →
      verify_chain chain v.root_certificates none = .ok pub_key →
      65 ≤ pub_key.length → en.sigKey ≠ some (ecPoint pub_key) →
      verify_and_decode_notification v now en = .crash)
  ∧ (∀ t, verify_and_decode_signed_transaction v now e = .ok t →
      ∃ chain pub_key, chainOf e = some chain ∧
        verify_chain chain v.root_certificates none = .ok pub_key ∧
        e.sigKey = some (ecPoint pub_key))
  ∧ (∀ n, verify_and_decode_notification v now en = .ok n →
      ∃ chain pub_key, chainOf en = some chain ∧
        verify_chain chain v.root_certificates none = .ok pub_key ∧
        en.sigKey = some (ecPoint pub_key)) := by
  refine ⟨?_, ?_, ?_, ?_, ?_, ?_⟩
  · intro chain hc hvc
    exact verify_tx_prop_err v now e _ (decode_chain_invalid v now e chain hc hvc)
  · intro chain hc hvc
    exact verify_notif_prop_err v now en _ (decode_chain_invalid v now en chain hc hvc)
  · intro chain pub_key hc hvc hlen hsig
    exact verify_tx_prop_crash v now e
      (decode_bad_sig_crash v now e chain pub_key hc hvc hlen hsig)
  · intro chain pub_key hc hvc hlen hsig
    exact verify_notif_prop_crash v now en
      (decode_bad_sig_crash v now en chain pub_key hc hvc hlen hsig)
  · intro t h
    obtain ⟨chain, pub_key, hc, hvc, hlen, hsk, hpl⟩ :=
      decode_ok_inv v now e t (verify_tx_ok_inv v now e t h)
    exact ⟨chain, pub_key, hc, hvc, hsk⟩
  · intro n h
    obtain ⟨chain, pub_key, hc, hvc, hlen, hsk, hpl⟩ :=
      decode_ok_inv v now en n (verify_notif_ok_inv v now en n h)
    exact ⟨chain, pub_key, hc, hvc, hsk⟩

/-- C1 witness: the amended trust gate applied to the concrete envelope
whose chain does not anchor at the trusted root. -/
theorem C1_trust_gate_witness :
    verify_and_decode_signed_transaction vSandbox 0 envBadChain =
      .err (.InternalChainVerifierError .ChainInvalid) := by
  have h := C1_trust_gate vSandbox 0 envBadChain envOkNotif
  exact h.1 [badLeafCert] (by decide) (by decide)

/-- C2 counterexample: the claim states that a non-ES256 algorithm is
rejected with a distinct UnsupportedAlgorithm error kind; the code has no
such kind: an RS256 envelope yields the VerificationFailure variant, the
very same error value returned for an empty chain, and an envelope whose
header declares alg none is not even parseable by the header parser, which
the code unwraps with expect, so it crashes. -/
theorem C2_counterexample :
    decode_signed_object vSandbox 0 envRS256 = .err .VerificationFailure ∧
    decode_signed_object vSandbox 0 envEmptyX5c = .err .VerificationFailure ∧
    decode_signed_object vSandbox 0 envHeaderNone = .crash := by
  exact ⟨by decide, by decide, by decide⟩

/-- C2 (amended): every envelope whose parsed header declares a
representable algorithm other than ES256 (and whose chain entries decode)
fails with the VerificationFailure variant — the same variant used for a
missing or empty chain, not a distinct UnsupportedAlgorithm kind — even if
the signature would otherwise verify; no fallback to another algorithm
occurs. An envelope declaring algorithm none fails header parsing and
crashes. -/
theorem C2_algorithm_pinning {T : Type} (v : SignedDataVerifier) (now : Nat)
    (e : SignedEnvelope T) (hd : JwsHeader)
    (x5c : List (Except DecodeError Certificate)) (chain : List Certificate)
    (h1 : e.header = some hd) (h2 : hd.x5c = some x5c) (h3 : x5c.isEmpty = false)
    (h4 : collectDer x5c = .ok chain) (h5 : hd.alg ≠ Algorithm.ES256) :
    decode_signed_object v now e = .err .VerificationFailure := by
  simp [decode_signed_object, h1, h2, h3, h4, h5]

/-- C2 witness: the amended algorithm pinning applied to the concrete RS256
envelope whose signature would verify under the validated key. -/
theorem C2_algorithm_pinning_witness :
    decode_signed_object vSandbox 0 envRS256 = .err .VerificationFailure := by
  exact C2_algorithm_pinning vSandbox 0 envRS256
    { alg := Algorithm.RS256, x5c := some [Except.ok leafCert] }
    [Except.ok leafCert] [leafCert] rfl rfl (by decide) (by decide) (by decide)

/-- C3: for every envelope that decodes into transaction claims, the
transaction verifier fails with the identity-mismatch error
(InvalidAppIdentifier) when the decoded bundle_id differs from the
configured one (including an absent bundle_id, since none never equals
some); otherwise fails with the environment-mismatch error
(InvalidEnvironment) when the decoded environment differs; otherwise
returns the claims. The bundle check needs no assumption on the
environment, showing it is performed first. -/
theorem C3_transaction_identity_checks (v : SignedDataVerifier) (now : Nat)
    (e : SignedEnvelope JWSTransactionDecodedPayload) (t : JWSTransactionDecodedPayload)
    (h : decode_signed_object v now e = .ok t) :
    (t.bundle_id ≠ some v.bundle_id →
      verify_and_decode_signed_transaction v now e = .err .InvalidAppIdentifier)
  ∧ (t.bundle_id = some v.bundle_id → t.environment ≠ some v.environment →
      verify_and_decode_signed_transaction v now e = .err .InvalidEnvironment)
  ∧ (t.bundle_id = some v.bundle_id → t.environment = some v.environment →
      verify_and_decode_signed_transaction v now e = .ok t) := by
  refine ⟨?_, ?_, ?_⟩
  · intro hb
    simp [verify_and_decode_signed_transaction, h, hb]
  · intro hb he
    simp [verify_and_decode_signed_transaction, h, hb, he]
  · intro hb he
    simp [verify_and_decode_signed_transaction, h, hb, he]

/-- C3 witness: the fully valid Sandbox transaction envelope (Scenario A)
passes both semantic checks and its claims are returned. -/
theorem C3_witness :
    verify_and_decode_signed_transaction vSandbox 0 envOkTx = .ok txPayload := by
  have h := C3_transaction_identity_checks vSandbox 0 envOkTx txPayload (by decide)
  exact h.2.2 rfl rfl

/-- C4: for every payload that decodes into notification claims, the
notification verifier reads the identity triple from data when present,
else from summary when present, and fails with the identity-mismatch error
(InvalidAppIdentifier) when neither is present. -/
theorem C4_subrecord_selection (v : SignedDataVerifier) (now : Nat)
    (en : SignedEnvelope ResponseBodyV2DecodedPayload) (n : ResponseBodyV2DecodedPayload)
    (h : decode_signed_object v now en = .ok n) :
    (∀ d, n.data = some d →
      verify_and_decode_notification v now en =
        (if d.bundle_id ≠ some v.bundle_id ∨
            (v.environment = Environment.Production ∧ d.app_apple_id ≠ v.app_apple_id) then
          .err .InvalidAppIdentifier
        else if d.environment ≠ some v.environment then .err .InvalidEnvironment
        else .ok n))
  ∧ (∀ s, n.data = none → n.summary = some s →
      verify_and_decode_notification v now en =
        (if s.bundle_id ≠ some v.bundle_id ∨
            (v.environment = Environment.Production ∧ s.app_apple_id ≠ v.app_apple_id) then
          .err .InvalidAppIdentifier
        else if s.environment ≠ some v.environment then .err .InvalidEnvironment
        else .ok n))
  ∧ (n.data = none → n.summary = none →
      verify_and_decode_notification v now en = .err .InvalidAppIdentifier) := by
  refine ⟨?_, ?_, ?_⟩
  · intro d hd
    simp [verify_and_decode_notification, h, selectSub, hd]
  · intro s hd hs
    simp [verify_and_decode_notification, h, selectSub, hd, hs]
  · intro hd hs
    simp [verify_and_decode_notification, h, selectSub, hd, hs]

/-- C4 witness: the concrete notification carrying a data sub-record is
checked against exactly that sub-record's fields. -/
theorem C4_witness :
    verify_and_decode_notification vSandbox 0 envOkNotif =
      (if notifData.bundle_id ≠ some vSandbox.bundle_id ∨
          (vSandbox.environment = Environment.Production ∧
            notifData.app_apple_id ≠ vSandbox.app_apple_id) then
        .err .InvalidAppIdentifier
      else if notifData.environment ≠ some vSandbox.environment then
        .err .InvalidEnvironment
      else .ok notifPayload) := by
  have h := C4_subrecord_selection vSandbox 0 envOkNotif notifPayload (by decide)
  exact h.1 notifData rfl

/-- C5: for every decoded notification whose selected sub-record matches
the configured bundle id, the Production configuration requires the
sub-record's app_apple_id to equal the configured app identifier (an
absent side never equals a present one), failing with the
identity-mismatch error otherwise; outside Production the app-identifier
value plays no role in the result. -/
theorem C5_production_app_identifier (v : SignedDataVerifier) (now : Nat)
    (en : SignedEnvelope ResponseBodyV2DecodedPayload) (n : ResponseBodyV2DecodedPayload)
    (b : Option String) (a : Option Int) (env : Option Environment)
    (h : decode_signed_object v now en = .ok n)
    (hsel : selectSub n = some (b, a, env))
    (hb : b = some v.bundle_id) :
    (v.environment = Environment.Production → a ≠ v.app_apple_id →
      verify_and_decode_notification v now en = .err .InvalidAppIdentifier)
  ∧ (v.environment = Environment.Production → a = v.app_apple_id →
      verify_and_decode_notification v now en =
        (if env ≠ some v.environment then .err .InvalidEnvironment else .ok n))
  ∧ (v.environment ≠ Environment.Production →
      verify_and_decode_notification v now en =
        (if env ≠ some v.environment then .err .InvalidEnvironment else .ok n)) := by
  subst hb
  refine ⟨?_, ?_, ?_⟩
  · intro hprod hne
    simp [verify_and_decode_notification, h, hsel, hprod, hne]
  · intro hprod heq
    simp [verify_and_decode_notification, h, hsel, hprod, heq]
  · intro hnp
    simp [verify_and_decode_notification, h, hsel, hnp]

/-- C5 witness: Scenario C — Production verifier with app identifier 42
rejects the notification whose data sub-record carries app_apple_id 99. -/
theorem C5_witness :
    verify_and_decode_notification vProd 0 envWrongAppId = .err .InvalidAppIdentifier := by
  have h := C5_production_app_identifier vProd 0 envWrongAppId notifPayloadWrongAppId
    (some "com.example.app") (some 99) (some Environment.Production)
    (by decide) (by decide) (by decide)
  exact h.1 rfl (by decide)

/-- C6 counterexample: the claim states that a missing or empty chain fails
with a MissingChain kind distinct from signature verification failure and
from the other kinds; the code returns the VerificationFailure variant in
both cases — the identical error value it returns for a rejected
algorithm, so no distinct failure mode exists. -/
theorem C6_counterexample :
    decode_signed_object vSandbox 0 envNoX5c = .err .VerificationFailure ∧
    decode_signed_object vSandbox 0 envEmptyX5c = .err .VerificationFailure ∧
    decode_signed_object vSandbox 0 envRS256 = .err .VerificationFailure := by
  exact ⟨by decide, by decide, by decide⟩

/-- C6 (amended): every envelope whose parsed header lacks an x5c chain or
carries an empty chain list fails with the VerificationFailure variant —
the same variant used for algorithm rejection, not a distinct MissingChain
kind. -/
theorem C6_missing_chain {T : Type} (v : SignedDataVerifier) (now : Nat)
    (e : SignedEnvelope T) (hd : JwsHeader)
    (h1 : e.header = some hd) (h2 : hd.x5c = none ∨ hd.x5c = some []) :
    decode_signed_object v now e = .err .VerificationFailure := by
  rcases h2 with h2 | h2 <;> simp [decode_signed_object, h1, h2]

/-- C6 witness: the amended missing-chain behavior on the concrete envelope
without an x5c field. -/
theorem C6_missing_chain_witness :
    decode_signed_object vSandbox 0 envNoX5c = .err .VerificationFailure := by
  exact C6_missing_chain vSandbox 0 envNoX5c
    { alg := Algorithm.ES256, x5c := none } rfl (Or.inl rfl)

/-- C7 counterexample: the claim states that header-parse failures and
final-payload deserialization failures surface as typed errors; the code
unwraps both with expect and panics on each. -/
theorem C7_counterexample :
    verify_and_decode_signed_transaction vSandbox 0 envHeaderNone = .crash ∧
    verify_and_decode_signed_transaction vSandbox 0 envDeserFail = .crash := by
  exact ⟨by decide, by decide⟩

/-- C7 (amended): on a header-parse failure both verify operations crash
(panic) rather than returning a typed error, and on a final-payload
deserialization failure after successful signature verification the
operation crashes as well; only base64 decode failures of chain entries
surface as a typed error (InternalDecodeError). -/
theorem C7_crash_on_malformed (v : SignedDataVerifier) (now : Nat)
    (e : SignedEnvelope JWSTransactionDecodedPayload)
    (en : SignedEnvelope ResponseBodyV2DecodedPayload) :
    (e.header = none → verify_and_decode_signed_transaction v now e = .crash)
  ∧ (en.header = none → verify_and_decode_notification v now en = .crash)
  ∧ (∀ chain pub_key, chainOf e = some chain →
      verify_chain chain v.root_certificates none = .ok pub_key →
      65 ≤ pub_key.length → e.sigKey = some (ecPoint pub_key) → e.payload = none →
      verify_and_decode_signed_transaction v now e = .crash)
  ∧ (∀ hd x5c de, e.header = some hd → hd.x5c = some x5c → x5c.isEmpty = false →
      collectDer x5c = .error de →
      verify_and_decode_signed_transaction v now e = .err (.InternalDecodeError de)) := by
  refine ⟨?_, ?_, ?_, ?_⟩
  · intro hh
    exact verify_tx_prop_crash v now e (by simp [decode_signed_object, hh])
  · intro hh
    exact verify_notif_prop_crash v now en (by simp [decode_signed_object, hh])
  · intro chain pub_key hc hvc hlen hsig hpl
    apply verify_tx_prop_crash
    rw [decode_eq_afterChain v now e chain hc]
    obtain ⟨hd, hh, halg⟩ := chainOf_header e chain hc
    have hnlt : ¬ pub_key.length < 65 := by omega
    simp [afterChain, hvc, hnlt,
      jwt_decode_no_payload now e hd (ecPoint pub_key) hh halg hsig hpl]
  · intro hd x5c de hh hx hne hcd
    apply verify_tx_prop_err
    simp [decode_signed_object, hh, hx, hne, hcd]

/-- C7 witness: the crash behavior applied to the concrete envelope whose
payload fails to deserialize after a valid chain and signature. -/
theorem C7_crash_on_malformed_witness :
    verify_and_decode_signed_transaction vSandbox 0 envDeserFail = .crash := by
  have h := C7_crash_on_malformed vSandbox 0 envDeserFail envOkNotif
  exact h.2.2.1 [leafCert] leafKeyBytes (by decide) (by decide) (by decide)
    (by decide) rfl

/-- C8: the decoding layer never enforces expiration or any required
claim: for every envelope whose chain validates and whose signature
verifies under the trust-validated key, decode_signed_object returns the
deserialized claims for every value of the payload's exp claim and every
current time. -/
theorem C8_no_expiration_check {T : Type} (v : SignedDataVerifier)
    (e : SignedEnvelope T) (chain : List Certificate) (pub_key : List Nat) (t : T)
    (hc : chainOf e = some chain)
    (hvc : verify_chain chain v.root_certificates none = .ok pub_key)
    (hlen : 65 ≤ pub_key.length)
    (hsig : e.sigKey = some (ecPoint pub_key))
    (hpl : e.payload = some t) :
    ∀ now exp2, decode_signed_object v now { e with exp := exp2 } = .ok t := by
  intro now exp2
  have hc2 : chainOf { e with exp := exp2 } = some chain := by
    rw [chainOf_set_exp]
    exact hc
  rw [decode_eq_afterChain v now _ chain hc2]
  obtain ⟨hd, hh, halg⟩ := chainOf_header e chain hc
  have hh2 : ({ e with exp := exp2 } : SignedEnvelope T).header = some hd := hh
  have hsig2 : ({ e with exp := exp2 } : SignedEnvelope T).sigKey =
      some (ecPoint pub_key) := hsig
  have hpl2 : ({ e with exp := exp2 } : SignedEnvelope T).payload = some t := hpl
  have hnlt : ¬ pub_key.length < 65 := by omega
  simp [afterChain, hvc, hnlt,
    jwt_decode_final_ok now _ hd (ecPoint pub_key) t hh2 halg hsig2 hpl2]

/-- C8 witness: an exp claim one second into the past of the clock still
decodes to the claims. -/
theorem C8_witness :
    decode_signed_object vSandbox 999 { envOkTx with exp := some 1 } = .ok txPayload := by
  have h := C8_no_expiration_check vSandbox envOkTx [leafCert] leafKeyBytes txPayload
    (by decide) (by decide) (by decide) (by decide) rfl
  exact h 999 (some 1)

/-- C9: decode_signed_object takes the trailing 65 bytes of the
chain-verified key with an unguarded slice: whenever the validated leaf
yields fewer than 65 key bytes, the operation crashes (panics) instead of
returning a typed error. -/
theorem C9_short_key_crash {T : Type} (v : SignedDataVerifier) (now : Nat)
    (e : SignedEnvelope T) (chain : List Certificate) (pub_key : List Nat)
    (hc : chainOf e = some chain)
    (hvc : verify_chain chain v.root_certificates none = .ok pub_key)
    (hlen : pub_key.length < 65) :
    decode_signed_object v now e = .crash := by
  rw [decode_eq_afterChain v now e chain hc]
  simp [afterChain, hvc, hlen]

/-- C9 witness: the concrete chain whose leaf key material is 2 bytes
crashes the decoder. -/
theorem C9_short_key_crash_witness :
    decode_signed_object vSandbox 0 envShortKey = .crash := by
  exact C9_short_key_crash vSandbox 0 envShortKey [shortKeyCert] [9, 9]
    (by decide) (by decide) (by decide)

/-- C10: the pipeline always invokes chain verification with no reference
timestamp, so validity periods are never checked: a chain with a valid
trust path whose certificates are outside their validity window at some
time t would be rejected by verify_chain given t, yet verify_chain as
invoked (with none) accepts it, and neither verify operation can fail with
the chain-invalid error on such a chain. -/
theorem C10_no_reference_time (v : SignedDataVerifier) (now t : Nat)
    (chain : List Certificate) (leaf : Certificate) (rest : List Certificate)
    (hch : chain = leaf :: rest)
    (hpath : pathValid v.root_certificates chain = true)
    (hbad : chain.all (timeValid t) = false) :
    verify_chain chain v.root_certificates (some t) = .error .ChainInvalid
  ∧ verify_chain chain v.root_certificates none = .ok leaf.pubKey
  ∧ (∀ e : SignedEnvelope JWSTransactionDecodedPayload, chainOf e = some chain →
      verify_and_decode_signed_transaction v now e ≠
        .err (.InternalChainVerifierError .ChainInvalid))
  ∧ (∀ en : SignedEnvelope ResponseBodyV2DecodedPayload, chainOf en = some chain →
      verify_and_decode_notification v now en ≠
        .err (.InternalChainVerifierError .ChainInvalid)) := by
  subst hch
  have h2 : verify_chain (leaf :: rest) v.root_certificates none = .ok leaf.pubKey := by
    simp [verify_chain, hpath]
  refine ⟨by simp [verify_chain, hpath, hbad], h2, ?_, ?_⟩
  · intro e hc h
    rcases verify_tx_err_inv v now e _ h with hd | hd | hd
    · rw [decode_eq_afterChain v now e _ hc] at hd
      exact afterChain_no_err v now e _ leaf.pubKey _ h2 hd
    · exact SignedDataVerifierError.noConfusion hd
    · exact SignedDataVerifierError.noConfusion hd
  · intro en hc h
    rcases verify_notif_err_inv v now en _ h with hd | hd | hd
    · rw [decode_eq_afterChain v now en _ hc] at hd
      exact afterChain_no_err v now en _ leaf.pubKey _ h2 hd
    · exact SignedDataVerifierError.noConfusion hd
    · exact SignedDataVerifierError.noConfusion hd

/-- C10 witness: the single-certificate chain expired from time 11 on is
rejected at reference time 50 but accepted by the pipeline's timeless
invocation. -/
theorem C10_no_reference_time_witness :
    verify_chain [expiredLeafCert] vSandbox.root_certificates (some 50) =
      .error .ChainInvalid ∧
    verify_chain [expiredLeafCert] vSandbox.root_certificates none =
      .ok expiredLeafCert.pubKey := by
  have h := C10_no_reference_time vSandbox 0 50 [expiredLeafCert] expiredLeafCert []
    rfl (by decide) (by decide)
  exact ⟨h.1, h.2.1⟩

end AppStoreServer
